import Mathlib

/-!
Verification of the credential and account-security engine
(`src/auth/auth_logic.py` and `src/auth/forgot_password.py`).

The Python modules are shallowly embedded as pure Lean functions:
the JSON-file stores become explicit values threaded through each
operation (`database/users.json` as an association list preserving
Python dict order, `database/login_attempts.json`,
`database/otp_verification.json` and `database/password_resets.json`
as finite maps `String → Option _`), wall-clock time becomes an
explicit `now : Nat` in seconds, and each operation returns its
result value together with the updated stores.  The SHA-256 primitive
from `hashlib` is an external library call, so it is a parameter
`H : String → String` of the functions that hash or verify; Streamlit
session-state writes on a successful login are presentation state and
are outside the modelled stores.
-/

namespace MedAuth

/-- `hash_password` (auth_logic.py lines 92-96): empty password maps to the
empty digest, otherwise the digest of the external hash primitive `H`
(`hashlib.sha256(...).hexdigest()` in the source). -/
def hash_password (H : String → String) (password : String) : String :=
  if password = "" then "" else H password

/-- `verify_password` (auth_logic.py lines 99-103): `False` when either input
is empty, else recompute the hash and compare. -/
def verify_password (H : String → String) (password hashed : String) : Bool :=
  if password = "" ∨ hashed = "" then false
  else hash_password H password == hashed

/-- Membership in the regex class `[A-Z]` used by `check_password_strength`. -/
def isUpperAZ (c : Char) : Bool := 'A' ≤ c && c ≤ 'Z'

/-- Membership in the regex class `[a-z]`. -/
def isLowerAZ (c : Char) : Bool := 'a' ≤ c && c ≤ 'z'

/-- Membership in the regex class `\d`, restricted to the ASCII digits the
stored codes and realistic passwords use. -/
def isDigit09 (c : Char) : Bool := '0' ≤ c && c ≤ '9'

/-- The characters of the regex class the source spells for the `special`
requirement; the two brace characters are written by code point 123 and 125. -/
def specialChars : List Char :=
  ['!', '@', '#', '$', '%', '^', '&', '*', '(', ')', ',', '.', '?', '\"', ':',
    Char.ofNat 123, Char.ofNat 125, '|', '<', '>']

/-- Membership in the `special` regex class of `check_password_strength`. -/
def isSpecial (c : Char) : Bool := specialChars.contains c

/-- The five boolean requirements computed by `check_password_strength`
(auth_logic.py lines 111-117). -/
structure StrengthReqs where
  length : Bool
  uppercase : Bool
  lowercase : Bool
  digit : Bool
  special : Bool
deriving Repr, DecidableEq

/-- The dictionary returned by `check_password_strength`: the 0-4 strength,
its label, its CSS class (`class` in the source, `cls` here) and the
requirement booleans. -/
structure StrengthReport where
  strength : Nat
  label : String
  cls : String
  requirements : StrengthReqs
deriving Repr, DecidableEq

/-- `check_password_strength` (auth_logic.py lines 106-130): one point per
satisfied requirement, then the 0-5 score is banded to strength 0-4. -/
def check_password_strength (password : String) : StrengthReport :=
  let reqs : StrengthReqs :=
    { length := decide (8 ≤ password.length)
      uppercase := password.data.any isUpperAZ
      lowercase := password.data.any isLowerAZ
      digit := password.data.any isDigit09
      special := password.data.any isSpecial }
  let score := reqs.length.toNat + reqs.uppercase.toNat + reqs.lowercase.toNat
    + reqs.digit.toNat + reqs.special.toNat
  if score ≤ 1 then { strength := 0, label := "Very Weak", cls := "weak", requirements := reqs }
  else if score = 2 then { strength := 1, label := "Weak", cls := "weak", requirements := reqs }
  else if score = 3 then { strength := 2, label := "Fair", cls := "fair", requirements := reqs }
  else if score = 4 then { strength := 3, label := "Good", cls := "good", requirements := reqs }
  else { strength := 4, label := "Strong", cls := "strong", requirements := reqs }

/-- The 0-5 point sum as the spec words it for claim C8: one point each for
length at least 8 and the presence of an uppercase letter, a lowercase
letter, a digit, and a punctuation or symbol character. -/
def strengthScoreSpec (password : String) : Nat :=
  (if decide (8 ≤ password.length) then 1 else 0)
  + (if password.data.any isUpperAZ then 1 else 0)
  + (if password.data.any isLowerAZ then 1 else 0)
  + (if password.data.any isDigit09 then 1 else 0)
  + (if password.data.any isSpecial then 1 else 0)

/-- The band map of claim C8, written from the spec: 0-1 to (0, Very Weak),
2 to (1, Weak), 3 to (2, Fair), 4 to (3, Good), 5 to (4, Strong). -/
def strengthBandSpec (score : Nat) : Nat × String :=
  if score ≤ 1 then (0, "Very Weak")
  else if score = 2 then (1, "Weak")
  else if score = 3 then (2, "Fair")
  else if score = 4 then (3, "Good")
  else (4, "Strong")

/-- Claim C8: for every password, `check_password_strength` is the pure
function awarding one point per satisfied requirement (length at least 8,
uppercase, lowercase, digit, symbol) and banding the 0-5 sum as
0-1 to Very Weak, 2 to Weak, 3 to Fair, 4 to Good, 5 to Strong. -/
theorem C8_strength_bands (password : String) :
    (check_password_strength password).strength
        = (strengthBandSpec (strengthScoreSpec password)).1 ∧
      (check_password_strength password).label
        = (strengthBandSpec (strengthScoreSpec password)).2 ∧
      (check_password_strength password).requirements.length
        = decide (8 ≤ password.length) ∧
      (check_password_strength password).requirements.uppercase
        = password.data.any isUpperAZ ∧
      (check_password_strength password).requirements.lowercase
        = password.data.any isLowerAZ ∧
      (check_password_strength password).requirements.digit
        = password.data.any isDigit09 ∧
      (check_password_strength password).requirements.special
        = password.data.any isSpecial := by
  unfold check_password_strength strengthScoreSpec strengthBandSpec
  cases h1 : decide (8 ≤ password.length) <;>
    cases h2 : password.data.any isUpperAZ <;>
      cases h3 : password.data.any isLowerAZ <;>
        cases h4 : password.data.any isDigit09 <;>
          cases h5 : password.data.any isSpecial <;>
            simp

/-- Claim C7: with the hash primitive idealized as collision-free with
nonempty digests, hashing then verifying the same nonempty plaintext
succeeds, verifying any different plaintext fails, the empty plaintext hashes
to the empty digest, and verification refuses an empty plaintext or digest. -/
theorem C7_hash_verify_round_trip (H : String → String)
    (hinj : Function.Injective H) (hne : ∀ s, s ≠ "" → H s ≠ "")
    (p q : String) (hp : p ≠ "") :
    verify_password H p (hash_password H p) = true ∧
      (q ≠ p → verify_password H q (hash_password H p) = false) ∧
      hash_password H "" = "" ∧
      (∀ d, verify_password H "" d = false) ∧
      (∀ s, verify_password H s "" = false) := by
  refine ⟨?_, ?_, ?_, ?_, ?_⟩
  · simp [verify_password, hash_password, hp, hne p hp]
  · intro hqp
    by_cases hq : q = ""
    · simp [verify_password, hq]
    · simp only [verify_password, hash_password, if_neg hp, if_neg hq]
      rw [if_neg (by simp [hq, hne p hp])]
      simp only [beq_eq_false_iff_ne, ne_eq]
      exact fun h => hqp (hinj h)
  · simp [hash_password]
  · intro d; simp [verify_password]
  · intro s; simp [verify_password]

/-- Claim C7 witness: the round trip evaluated at the identity primitive on
the plaintexts `a` and `b`. -/
theorem C7_hash_verify_round_trip_witness :
    verify_password id "a" (hash_password id "a") = true ∧
      verify_password id "b" (hash_password id "a") = false := by
  have h := C7_hash_verify_round_trip id Function.injective_id
    (fun s hs => hs) "a" "b" (by decide)
  exact ⟨h.1, h.2.1 (by decide)⟩

/-! ## Login attempt tracking (auth_logic.py lines 196-259)

`database/login_attempts.json` is a dict keyed by the normalized identifier;
it is modelled as a finite map `String → Option AttemptRec`, and wall-clock
time as `now : Nat` in seconds (`LOCKOUT_DURATION` of 15 minutes is 900
seconds, and `int(td.total_seconds() / 60)` is `seconds / 60` on `Nat`). -/

/-- One value of the `login_attempts.json` dict. -/
structure AttemptRec where
  count : Nat
  last_attempt : Option Nat
  locked_until : Option Nat
deriving Repr, DecidableEq

/-- The zero-value record `get_login_attempts` returns for an unknown key. -/
def emptyAttempts : AttemptRec :=
  { count := 0, last_attempt := none, locked_until := none }

/-- The login-attempts store. -/
abbrev AttemptStore := String → Option AttemptRec

/-- Python `str.lower` on one character (the ASCII range the stored
identifiers use). -/
def lowerChar (c : Char) : Char :=
  if 'A' ≤ c && c ≤ 'Z' then Char.ofNat (c.toNat + 32) else c

/-- Python `str.lower`. -/
def pyLower (s : String) : String := String.mk (s.data.map lowerChar)

/-- The whitespace characters Python `str.strip` removes. -/
def isSpaceChar (c : Char) : Bool := c = ' ' || c = '\t' || c = '\n' || c = '\r'

/-- Python `str.strip`: drop whitespace from both ends. -/
def pyStrip (s : String) : String :=
  String.mk (((s.data.dropWhile isSpaceChar).reverse.dropWhile isSpaceChar).reverse)

/-- The key normalization `identifier.lower().strip()` used by the tracker. -/
def normKey (s : String) : String := pyStrip (pyLower s)

/-- `MAX_LOGIN_ATTEMPTS` (auth_logic.py line 199). -/
def MAX_LOGIN_ATTEMPTS : Nat := 5

/-- `LOCKOUT_DURATION` of 15 minutes (auth_logic.py line 200), in seconds. -/
def LOCKOUT_SECS : Nat := 15 * 60

/-- `get_login_attempts` (auth_logic.py lines 203-210). -/
def get_login_attempts (store : AttemptStore) (identifier : String) : AttemptRec :=
  if identifier = "" then emptyAttempts
  else (store (normKey identifier)).getD emptyAttempts

/-- `record_failed_login` (auth_logic.py lines 213-229): bump the count,
stamp the time, and set `locked_until = now + 15min` once the count reaches
`MAX_LOGIN_ATTEMPTS`. -/
def record_failed_login (store : AttemptStore) (identifier : String) (now : Nat) :
    AttemptStore :=
  if identifier = "" then store
  else
    let key := normKey identifier
    let r := (store key).getD emptyAttempts
    let c := r.count + 1
    let r2 : AttemptRec :=
      { count := c, last_attempt := some now,
        locked_until := if MAX_LOGIN_ATTEMPTS ≤ c then some (now + LOCKOUT_SECS)
          else r.locked_until }
    fun k => if k = key then some r2 else store k

/-- `clear_login_attempts` (auth_logic.py lines 232-241). -/
def clear_login_attempts (store : AttemptStore) (identifier : String) : AttemptStore :=
  if identifier = "" then store
  else fun k => if k = normKey identifier then none else store k

/-- `is_account_locked` (auth_logic.py lines 244-259): returns the
`(locked, remaining_minutes)` pair and the possibly self-healed store.  While
locked, `remaining = int((locked_until - now).total_seconds() / 60) + 1`;
an expired `locked_until` clears the record lazily. -/
def is_account_locked (store : AttemptStore) (identifier : String) (now : Nat) :
    (Bool × Option Nat) × AttemptStore :=
  if identifier = "" then ((false, none), store)
  else
    let r := get_login_attempts store identifier
    match r.locked_until with
    | some lu =>
      if now < lu then ((true, some ((lu - now) / 60 + 1)), store)
      else ((false, none), clear_login_attempts store identifier)
    | none => ((false, none), store)

/-- Value of the store at the written key after `record_failed_login`. -/
theorem record_failed_login_at_key (store : AttemptStore) (identifier : String)
    (now : Nat) (hid : identifier ≠ "") :
    record_failed_login store identifier now (normKey identifier) =
      some { count := ((store (normKey identifier)).getD emptyAttempts).count + 1
             last_attempt := some now
             locked_until :=
               if MAX_LOGIN_ATTEMPTS ≤ ((store (normKey identifier)).getD emptyAttempts).count + 1
               then some (now + LOCKOUT_SECS)
               else ((store (normKey identifier)).getD emptyAttempts).locked_until } := by
  simp [record_failed_login, hid]

/-- `record_failed_login` leaves every other key alone. -/
theorem record_failed_login_at_other (store : AttemptStore) (identifier : String)
    (now : Nat) (k : String) (hk : k ≠ normKey identifier) :
    record_failed_login store identifier now k = store k := by
  unfold record_failed_login
  by_cases hid : identifier = "" <;> simp [hid, hk]

/-- A sequence of `record_failed_login` calls at the given times. -/
def failTimes (store : AttemptStore) (identifier : String) (times : List Nat) :
    AttemptStore :=
  times.foldl (fun s t => record_failed_login s identifier t) store

/-- The empty login-attempts store. -/
def noAttempts : AttemptStore := fun _ => none

/-- Claim C1 (amended): starting from no record, five consecutive
`record_failed_login` calls lock the account; `is_account_locked` evaluated
at the very timestamp of the fifth failure reports `(true, 16)` (the code
computes `int(remaining seconds / 60) + 1`, and 900 / 60 + 1 = 16), at any
strictly later time within the first minute it reports `(true, 15)`, and
after only four failures it reports `(false, none)` at every time. -/
theorem C1_lockout_threshold_timing (store : AttemptStore) (identifier : String)
    (t1 t2 t3 t4 t5 t q : Nat) (hid : identifier ≠ "")
    (h0 : store (normKey identifier) = none) (hlt : t5 < t) (hle : t ≤ t5 + 60) :
    (is_account_locked (failTimes store identifier [t1, t2, t3, t4, t5]) identifier t5).1
        = (true, some 16) ∧
      (is_account_locked (failTimes store identifier [t1, t2, t3, t4, t5]) identifier t).1
        = (true, some 15) ∧
      (is_account_locked (failTimes store identifier [t1, t2, t3, t4]) identifier q).1
        = (false, none) := by
  have k1 : record_failed_login store identifier t1 (normKey identifier)
      = some ⟨1, some t1, none⟩ := by
    rw [record_failed_login_at_key store identifier t1 hid, h0]
    simp [emptyAttempts, MAX_LOGIN_ATTEMPTS]
  have k2 : record_failed_login (record_failed_login store identifier t1) identifier t2
      (normKey identifier) = some ⟨2, some t2, none⟩ := by
    rw [record_failed_login_at_key _ identifier t2 hid, k1]
    simp [MAX_LOGIN_ATTEMPTS]
  have k3 : record_failed_login (record_failed_login (record_failed_login store
      identifier t1) identifier t2) identifier t3 (normKey identifier)
      = some ⟨3, some t3, none⟩ := by
    rw [record_failed_login_at_key _ identifier t3 hid, k2]
    simp [MAX_LOGIN_ATTEMPTS]
  have k4 : record_failed_login (record_failed_login (record_failed_login
      (record_failed_login store identifier t1) identifier t2) identifier t3)
      identifier t4 (normKey identifier) = some ⟨4, some t4, none⟩ := by
    rw [record_failed_login_at_key _ identifier t4 hid, k3]
    simp [MAX_LOGIN_ATTEMPTS]
  have k5 : record_failed_login (record_failed_login (record_failed_login
      (record_failed_login (record_failed_login store identifier t1) identifier t2)
      identifier t3) identifier t4) identifier t5 (normKey identifier)
      = some ⟨5, some t5, some (t5 + 900)⟩ := by
    rw [record_failed_login_at_key _ identifier t5 hid, k4]
    simp [MAX_LOGIN_ATTEMPTS, LOCKOUT_SECS]
  refine ⟨?_, ?_, ?_⟩
  · have h : t5 < t5 + 900 := by omega
    simp only [failTimes, List.foldl_cons, List.foldl_nil]
    simp [is_account_locked, get_login_attempts, hid, k5, h]
    try omega
  · have h : t < t5 + 900 := by omega
    simp only [failTimes, List.foldl_cons, List.foldl_nil]
    simp [is_account_locked, get_login_attempts, hid, k5, h]
    try omega
  · simp only [failTimes, List.foldl_cons, List.foldl_nil]
    simp [is_account_locked, get_login_attempts, hid, k4]

/-- Claim C1 witness: the amended behaviour at identifier `alice`, five
failures at time 0, queried 30 seconds later. -/
theorem C1_lockout_threshold_timing_witness :
    (is_account_locked (failTimes noAttempts "alice" [0, 0, 0, 0, 0]) "alice" 30).1
      = (true, some 15) :=
  (C1_lockout_threshold_timing noAttempts "alice" 0 0 0 0 0 30 7 (by decide) rfl
    (by decide) (by decide)).2.1

/-- Claim C1 counterexample: at the very moment of the fifth failure the code
reports 16 remaining minutes, not the claimed `(true, 15)`. -/
theorem C1_counterexample :
    (is_account_locked (failTimes noAttempts "alice" [0, 0, 0, 0, 0]) "alice" 0).1
        = (true, some 16) ∧
      ¬ (is_account_locked (failTimes noAttempts "alice" [0, 0, 0, 0, 0]) "alice" 0).1
        = (true, some 15) := by
  decide

/-- Claim C6: an attempt record whose `locked_until` lies in the past is
cleared by the very next `is_account_locked` call, which reports
`(false, none)`; a subsequent `get_login_attempts` sees the zero-value
record. -/
theorem C6_lockout_self_heal (store : AttemptStore) (identifier : String)
    (now lu : Nat) (r : AttemptRec) (hid : identifier ≠ "")
    (hrec : store (normKey identifier) = some r) (hlu : r.locked_until = some lu)
    (hpast : lu < now) :
    (is_account_locked store identifier now).1 = (false, none) ∧
      (is_account_locked store identifier now).2 (normKey identifier) = none ∧
      get_login_attempts ((is_account_locked store identifier now).2) identifier
        = emptyAttempts := by
  have hnl : ¬ now < lu := by omega
  simp [is_account_locked, hrec, hlu, hnl, clear_login_attempts, hid,
    get_login_attempts]

/-- Claim C6 witness: a record locked until time 100, observed at time 200. -/
theorem C6_lockout_self_heal_witness :
    (is_account_locked (fun k => if k = "alice" then some ⟨5, some 0, some 100⟩ else none)
        "alice" 200).1 = (false, none) ∧
      (is_account_locked (fun k => if k = "alice" then some ⟨5, some 0, some 100⟩ else none)
        "alice" 200).2 (normKey "alice") = none ∧
      get_login_attempts ((is_account_locked
          (fun k => if k = "alice" then some ⟨5, some 0, some 100⟩ else none)
        "alice" 200).2) "alice" = emptyAttempts :=
  C6_lockout_self_heal (fun k => if k = "alice" then some ⟨5, some 0, some 100⟩ else none)
    "alice" 200 100 ⟨5, some 0, some 100⟩ (by decide) (by decide) rfl (by decide)

/-! ## User store and authentication (auth_logic.py lines 160-193, 482-549)

`database/users.json` is a dict from username to user data; it is modelled
as an association list that preserves Python's insertion-ordered iteration,
with the fields the modelled operations read or write. -/

/-- One value of the `users.json` dict (the fields the verified operations
touch; `password` holds the stored hash). -/
structure UserRec where
  password : String
  email : String
  role : String
  last_login : Option Nat
  login_count : Nat
  password_reset_date : Option Nat
deriving Repr, DecidableEq

/-- The users store, in Python dict iteration order. -/
abbrev Users := List (String × UserRec)

/-- `users[username]` as a lookup. -/
def lookupUser (users : Users) (username : String) : Option UserRec :=
  (users.find? (fun p => p.1 == username)).map (fun p => p.2)

/-- In-place update of one user's record, as the source's item assignment. -/
def updateUser (users : Users) (username : String) (f : UserRec → UserRec) : Users :=
  users.map (fun p => if p.1 = username then (p.1, f p.2) else p)

/-- `find_user_by_identifier` (auth_logic.py lines 160-186): case-insensitive
match on usernames first, then on nonempty emails. -/
def find_user_by_identifier (users : Users) (identifier : String) :
    Option (String × UserRec) :=
  if identifier = "" then none
  else if users.isEmpty then none
  else
    let idl := pyLower (pyStrip identifier)
    match users.find? (fun p => pyLower p.1 == idl) with
    | some p => some p
    | none => users.find? (fun p => (p.2.email != "") && (pyLower p.2.email == idl))

/-- The outcomes of `authenticate_user`, one constructor per distinct return
message of the source (the two success messages differ only by a
"logged in via email" suffix and share one constructor carrying the
resolved username). -/
inductive AuthResult where
  | invalidInput
  | locked (remaining : Nat)
  | invalidCredentials
  | accountConfigError
  | lockedNow
  | invalidFewRemaining (remaining : Nat)
  | success (username : String)
deriving Repr, DecidableEq

/-- `authenticate_user` (auth_logic.py lines 482-549): empty-input check,
lockout check, user lookup, stored-hash check, password verification with
attempt recording, and on success the triple clear of attempt records plus
the `last_login` / `login_count` update.  Returns the result and the updated
users and attempts stores (the Streamlit session-state writes are
presentation state outside the modelled stores). -/
def authenticate_user (H : String → String) (users : Users)
    (attempts : AttemptStore) (identifier password : String) (now : Nat) :
    AuthResult × Users × AttemptStore :=
  if identifier = "" ∨ password = "" then (.invalidInput, users, attempts)
  else
    let ident := pyStrip identifier
    let pw := pyStrip password
    let lock := is_account_locked attempts ident now
    let attempts1 := lock.2
    if lock.1.1 then (.locked (lock.1.2.getD 0), users, attempts1)
    else
      match find_user_by_identifier users ident with
      | none => (.invalidCredentials, users, record_failed_login attempts1 ident now)
      | some (username, user) =>
        if user.password = "" then (.accountConfigError, users, attempts1)
        else if verify_password H pw user.password = false then
          let attempts2 := record_failed_login attempts1 ident now
          let remaining : Int := (MAX_LOGIN_ATTEMPTS : Int)
            - (get_login_attempts attempts2 ident).count
          if remaining ≤ 0 then (.lockedNow, users, attempts2)
          else if remaining ≤ 2 then (.invalidFewRemaining remaining.toNat, users, attempts2)
          else (.invalidCredentials, users, attempts2)
        else
          let attempts2 := clear_login_attempts attempts1 ident
          let attempts3 := clear_login_attempts attempts2 username
          let attempts4 := if user.email ≠ "" then clear_login_attempts attempts3 user.email
            else attempts3
          let users2 :=
            if (lookupUser users username).isSome then
              updateUser users username
                (fun v => { v with last_login := some now, login_count := v.login_count + 1 })
            else users
          (.success username, users2, attempts4)

/-- Pointwise description of one `clear_login_attempts`. -/
theorem clear_login_attempts_at (s : AttemptStore) (x k : String) (hx : x ≠ "") :
    clear_login_attempts s x k = if k = normKey x then none else s k := by
  simp [clear_login_attempts, hx]

/-- After clearing three identifiers, each of their normalized keys maps to
nothing. -/
theorem clear3_at (s : AttemptStore) (a b c k : String)
    (ha : a ≠ "") (hb : b ≠ "") (hc : c ≠ "")
    (hk : k = normKey a ∨ k = normKey b ∨ k = normKey c) :
    clear_login_attempts (clear_login_attempts (clear_login_attempts s a) b) c k
      = none := by
  rw [clear_login_attempts_at _ _ _ hc, clear_login_attempts_at _ _ _ hb,
    clear_login_attempts_at _ _ _ ha]
  split_ifs with h1 h2 h3 <;> first | rfl | tauto

/-- Claim C4 (amended): for an identifier whose attempt record is locked at
`now` (and that is not all whitespace), `authenticate_user` with any
non-empty password returns the locked result computed from the record alone:
the credential store is returned untouched and the outcome is the same for
every credential store, so the lockout check precedes any user lookup. -/
theorem C4_locked_before_lookup (H : String → String) (attempts : AttemptStore)
    (identifier password : String) (now lu : Nat) (r : AttemptRec)
    (hid : identifier ≠ "") (hpw : password ≠ "")
    (htrim : pyStrip identifier ≠ "")
    (hrec : attempts (normKey (pyStrip identifier)) = some r)
    (hlu : r.locked_until = some lu) (hnow : now < lu) :
    ∀ users : Users,
      authenticate_user H users attempts identifier password now
        = (.locked ((lu - now) / 60 + 1), users, attempts) := by
  intro users
  simp [authenticate_user, hid, hpw, is_account_locked, get_login_attempts,
    htrim, hrec, hlu, hnow]

/-- Claim C4 witness: a locked record consulted at time 0 blocks the login
and the empty credential store comes back unchanged. -/
theorem C4_locked_before_lookup_witness :
    authenticate_user id []
        (fun k => if k = "alice" then some ⟨5, some 0, some 900⟩ else none)
        "alice" "pw" 0
      = (.locked 16, [],
          fun k => if k = "alice" then some ⟨5, some 0, some 900⟩ else none) :=
  C4_locked_before_lookup id
    (fun k => if k = "alice" then some ⟨5, some 0, some 900⟩ else none)
    "alice" "pw" 0 900 ⟨5, some 0, some 900⟩ (by decide) (by decide) (by decide)
    (by decide) rfl (by decide) []

/-- Claim C4 counterexample: with the empty password, the empty-input check
fires before the lockout check even for a locked identifier, so the call
returns the invalid-input result rather than a locked result. -/
theorem C4_counterexample :
    (authenticate_user id []
        (fun k => if k = "alice" then some ⟨5, some 0, some 900⟩ else none)
        "alice" "" 0).1 = AuthResult.invalidInput ∧
      ¬ (authenticate_user id []
        (fun k => if k = "alice" then some ⟨5, some 0, some 900⟩ else none)
        "alice" "" 0).1 = AuthResult.locked 15 := by
  decide

/-- Claim C5: a successful `authenticate_user` call removes the attempt
records keyed by the normalized supplied identifier, by the resolved user's
username and by that user's email, whatever store the failures were recorded
in. -/
theorem C5_success_clears_aliases (H : String → String) (users : Users)
    (attempts : AttemptStore) (identifier password : String) (now : Nat)
    (username : String) (user : UserRec)
    (hid : identifier ≠ "") (hpw : password ≠ "")
    (hlock : (is_account_locked attempts (pyStrip identifier) now).1.1 = false)
    (hfind : find_user_by_identifier users (pyStrip identifier)
      = some (username, user))
    (hvp : verify_password H (pyStrip password) user.password = true)
    (huser : username ≠ "") (hemail : user.email ≠ "") :
    (authenticate_user H users attempts identifier password now).1
        = .success username ∧
      (authenticate_user H users attempts identifier password now).2.2
          (normKey (pyStrip identifier)) = none ∧
      (authenticate_user H users attempts identifier password now).2.2
          (normKey username) = none ∧
      (authenticate_user H users attempts identifier password now).2.2
          (normKey user.email) = none := by
  have hupw : user.password ≠ "" := by
    intro h
    rw [h] at hvp
    simp [verify_password] at hvp
  have hident : pyStrip identifier ≠ "" := by
    intro h
    rw [h] at hfind
    simp [find_user_by_identifier] at hfind
  have h2 : (authenticate_user H users attempts identifier password now).2.2
      = clear_login_attempts (clear_login_attempts (clear_login_attempts
          (is_account_locked attempts (pyStrip identifier) now).2
          (pyStrip identifier)) username) user.email := by
    simp [authenticate_user, hid, hpw, hlock, hfind, hupw, hvp, hemail]
  refine ⟨?_, ?_, ?_, ?_⟩
  · simp [authenticate_user, hid, hpw, hlock, hfind, hupw, hvp]
  · rw [h2]
    exact clear3_at _ _ _ _ _ hident huser hemail (Or.inl rfl)
  · rw [h2]
    exact clear3_at _ _ _ _ _ hident huser hemail (Or.inr (Or.inl rfl))
  · rw [h2]
    exact clear3_at _ _ _ _ _ hident huser hemail (Or.inr (Or.inr rfl))

/-- Claim C5 witness: failures recorded under the email alias are cleared by
a successful login under the (differently-cased) username. -/
theorem C5_success_clears_aliases_witness :
    (authenticate_user id [("Alice", ⟨"pw", "alice@x.com", "User", none, 0, none⟩)]
        (fun k => if k = "alice@x.com" then some ⟨3, some 0, none⟩ else none)
        "ALICE" "pw" 5).1 = .success "Alice" ∧
      (authenticate_user id [("Alice", ⟨"pw", "alice@x.com", "User", none, 0, none⟩)]
        (fun k => if k = "alice@x.com" then some ⟨3, some 0, none⟩ else none)
        "ALICE" "pw" 5).2.2 (normKey (pyStrip "ALICE")) = none ∧
      (authenticate_user id [("Alice", ⟨"pw", "alice@x.com", "User", none, 0, none⟩)]
        (fun k => if k = "alice@x.com" then some ⟨3, some 0, none⟩ else none)
        "ALICE" "pw" 5).2.2 (normKey "Alice") = none ∧
      (authenticate_user id [("Alice", ⟨"pw", "alice@x.com", "User", none, 0, none⟩)]
        (fun k => if k = "alice@x.com" then some ⟨3, some 0, none⟩ else none)
        "ALICE" "pw" 5).2.2
        (normKey (⟨"pw", "alice@x.com", "User", none, 0, none⟩ : UserRec).email)
        = none :=
  C5_success_clears_aliases id
    [("Alice", ⟨"pw", "alice@x.com", "User", none, 0, none⟩)]
    (fun k => if k = "alice@x.com" then some ⟨3, some 0, none⟩ else none)
    "ALICE" "pw" 5 "Alice" ⟨"pw", "alice@x.com", "User", none, 0, none⟩
    (by decide) (by decide) (by decide) (by decide) (by decide) (by decide)
    (by decide)

/-- Claim C10 (amended): when the identifier's attempt record carries no
`locked_until` timestamp and the identifier resolves to a stored user whose
password hash is empty, `authenticate_user` with any non-empty password
returns the account-configuration error and hands back both stores exactly
as given: no failed attempt is recorded and no user field changes. -/
theorem C10_config_error_frame (H : String → String) (users : Users)
    (attempts : AttemptStore) (identifier password : String) (now : Nat)
    (username : String) (user : UserRec)
    (hid : identifier ≠ "") (hpw : password ≠ "")
    (hnl : (get_login_attempts attempts (pyStrip identifier)).locked_until = none)
    (hfind : find_user_by_identifier users (pyStrip identifier)
      = some (username, user))
    (hempty : user.password = "") :
    authenticate_user H users attempts identifier password now
      = (.accountConfigError, users, attempts) := by
  have hident : pyStrip identifier ≠ "" := by
    intro h
    rw [h] at hfind
    simp [find_user_by_identifier] at hfind
  simp [authenticate_user, hid, hpw, is_account_locked, hident, hnl, hfind,
    hempty]

/-- Claim C10 witness: a stored user with an empty hash yields the
configuration error with both stores unchanged. -/
theorem C10_config_error_frame_witness :
    authenticate_user id [("bob", ⟨"", "bob@x.com", "User", none, 0, none⟩)]
        noAttempts "bob" "x" 0
      = (.accountConfigError, [("bob", ⟨"", "bob@x.com", "User", none, 0, none⟩)],
          noAttempts) :=
  C10_config_error_frame id [("bob", ⟨"", "bob@x.com", "User", none, 0, none⟩)]
    noAttempts "bob" "x" 0 "bob" ⟨"", "bob@x.com", "User", none, 0, none⟩
    (by decide) (by decide) (by decide) (by decide) rfl

/-- Claim C10 counterexample: the empty password returns the invalid-input
result instead of the configuration error, and an identifier whose lock has
expired reaches the configuration error only after the lazy self-heal has
deleted its attempt record, so the attempt store is not left as it was. -/
theorem C10_counterexample :
    (authenticate_user id [("bob", ⟨"", "bob@x.com", "User", none, 0, none⟩)]
        noAttempts "bob" "" 0).1 = AuthResult.invalidInput ∧
      (authenticate_user id [("bob", ⟨"", "bob@x.com", "User", none, 0, none⟩)]
        (fun k => if k = "bob" then some ⟨5, some 0, some 5⟩ else none)
        "bob" "x" 10).1 = AuthResult.accountConfigError ∧
      (authenticate_user id [("bob", ⟨"", "bob@x.com", "User", none, 0, none⟩)]
        (fun k => if k = "bob" then some ⟨5, some 0, some 5⟩ else none)
        "bob" "x" 10).2.2 "bob" = none ∧
      ¬ (fun k => if k = "bob" then some (⟨5, some 0, some 5⟩ : AttemptRec) else none)
        "bob" = none := by
  decide

/-! ## OTP issuance and verification (auth_logic.py lines 265-332) and the
password-reset module (forgot_password.py)

`database/otp_verification.json` and `database/password_resets.json` are
dicts keyed by email; the verification TTL is 5 minutes (300 seconds), the
reset TTL 10 minutes (600 seconds). -/

/-- One value of the `otp_verification.json` dict. -/
structure OtpRec where
  otp : String
  purpose : String
  timestamp : Nat
  verified : Bool
  attempts : Nat
deriving Repr, DecidableEq

/-- The signup-verification OTP store. -/
abbrev OtpStore := String → Option OtpRec

/-- The outcomes of `verify_otp` / `verify_reset_otp`, one constructor per
distinct return message. -/
inductive OtpResult where
  | notFound
  | attemptsExceeded
  | expired
  | mismatch (remaining : Nat)
  | success
deriving Repr, DecidableEq

/-- `send_otp_email` (auth_logic.py lines 270-287): stores a fresh record for
the email (the delivery itself is mocked in the source). -/
def send_otp_email (store : OtpStore) (email otp purpose : String) (now : Nat) :
    OtpStore :=
  fun k => if k = email then
    some { otp := otp, purpose := purpose, timestamp := now, verified := false,
           attempts := 0 }
  else store k

/-- `verify_otp` (auth_logic.py lines 290-321): exhaustion check before the
expiry check before the code comparison; a wrong code increments `attempts`
and reports `5 - attempts - 1` tries remaining; a right code sets the
`verified` flag and keeps the record. -/
def verify_otp (store : OtpStore) (email otp_input : String) (now : Nat) :
    OtpResult × OtpStore :=
  match store email with
  | none => (.notFound, store)
  | some d =>
    if 5 ≤ d.attempts then
      (.attemptsExceeded, fun k => if k = email then none else store k)
    else if 300 < now - d.timestamp then
      (.expired, fun k => if k = email then none else store k)
    else if d.otp ≠ otp_input then
      (.mismatch (5 - d.attempts - 1),
        fun k => if k = email then some { d with attempts := d.attempts + 1 }
          else store k)
    else
      (.success, fun k => if k = email then some { d with verified := true }
          else store k)

/-- One value of the `password_resets.json` dict. -/
structure ResetRec where
  otp : String
  username : String
  timestamp : Nat
  verified : Bool
  attempts : Nat
deriving Repr, DecidableEq

/-- The password-reset OTP store. -/
abbrev ResetStore := String → Option ResetRec

/-- `verify_reset_otp` (forgot_password.py lines 83-111): same shape as
`verify_otp` with a 10-minute TTL, a `4 - attempts` remaining report, and no
deletion on exhaustion. -/
def verify_reset_otp (store : ResetStore) (email otp_input : String) (now : Nat) :
    OtpResult × ResetStore :=
  let key := pyLower email
  match store key with
  | none => (.notFound, store)
  | some r =>
    if 5 ≤ r.attempts then (.attemptsExceeded, store)
    else if 600 < now - r.timestamp then
      (.expired, fun k => if k = key then none else store k)
    else if r.otp ≠ otp_input then
      (.mismatch (4 - r.attempts),
        fun k => if k = key then some { r with attempts := r.attempts + 1 }
          else store k)
    else
      (.success, fun k => if k = key then some { r with verified := true }
          else store k)

/-- The outcomes of `reset_password`, one constructor per return message. -/
inductive ResetResult where
  | fillBoth
  | passwordsDontMatch
  | tooShort
  | noRequest
  | notVerified
  | userNotFound
  | success
deriving Repr, DecidableEq

/-- `reset_password` (forgot_password.py lines 114-148): validations, then
the verified reset record resolves the username, the stored hash is
replaced, and the reset record is consumed. -/
def reset_password (H : String → String) (users : Users) (resets : ResetStore)
    (email new_password confirm_password : String) (now : Nat) :
    ResetResult × Users × ResetStore :=
  if new_password = "" ∨ confirm_password = "" then (.fillBoth, users, resets)
  else if new_password ≠ confirm_password then (.passwordsDontMatch, users, resets)
  else if new_password.length < 6 then (.tooShort, users, resets)
  else
    let key := pyLower email
    match resets key with
    | none => (.noRequest, users, resets)
    | some r =>
      if r.verified = false then (.notVerified, users, resets)
      else if (lookupUser users r.username).isSome = false then
        (.userNotFound, users, resets)
      else
        let users2 := updateUser users r.username
          (fun v => { v with
            password := hash_password H new_password
            password_reset_date := some now })
        (.success, users2, fun k => if k = key then none else resets k)

/-- `verify_otp` on a live record and a wrong code. -/
theorem verify_otp_mismatch (store : OtpStore) (email w : String) (now : Nat)
    (d : OtpRec) (hrec : store email = some d) (hatt : d.attempts < 5)
    (ht : now - d.timestamp ≤ 300) (hw : d.otp ≠ w) :
    verify_otp store email w now
      = (.mismatch (5 - d.attempts - 1),
          fun k => if k = email then some { d with attempts := d.attempts + 1 }
            else store k) := by
  have h1 : ¬ 5 ≤ d.attempts := by omega
  have h2 : ¬ 300 < now - d.timestamp := by omega
  simp [verify_otp, hrec, h1, h2, hw]

/-- `verify_otp` on a live record and the right code. -/
theorem verify_otp_right_code (store : OtpStore) (email w : String) (now : Nat)
    (d : OtpRec) (hrec : store email = some d) (hatt : d.attempts < 5)
    (ht : now - d.timestamp ≤ 300) (hw : d.otp = w) :
    verify_otp store email w now
      = (.success,
          fun k => if k = email then some { d with verified := true } else store k) := by
  have h1 : ¬ 5 ≤ d.attempts := by omega
  have h2 : ¬ 300 < now - d.timestamp := by omega
  simp [verify_otp, hrec, h1, h2, hw]

/-- `verify_otp` on an exhausted record deletes it. -/
theorem verify_otp_exhausted (store : OtpStore) (email w : String) (now : Nat)
    (d : OtpRec) (hrec : store email = some d) (hatt : 5 ≤ d.attempts) :
    verify_otp store email w now
      = (.attemptsExceeded, fun k => if k = email then none else store k) := by
  simp [verify_otp, hrec, hatt]

/-- `verify_reset_otp` on a live record and a wrong code. -/
theorem verify_reset_otp_mismatch (store : ResetStore) (email w : String)
    (now : Nat) (r : ResetRec) (hrec : store (pyLower email) = some r)
    (hatt : r.attempts < 5) (ht : now - r.timestamp ≤ 600) (hw : r.otp ≠ w) :
    verify_reset_otp store email w now
      = (.mismatch (4 - r.attempts),
          fun k => if k = pyLower email then some { r with attempts := r.attempts + 1 }
            else store k) := by
  have h1 : ¬ 5 ≤ r.attempts := by omega
  have h2 : ¬ 600 < now - r.timestamp := by omega
  simp [verify_reset_otp, hrec, h1, h2, hw]

/-- `verify_reset_otp` on an exhausted record keeps the store as it is. -/
theorem verify_reset_otp_exhausted (store : ResetStore) (email w : String)
    (now : Nat) (r : ResetRec) (hrec : store (pyLower email) = some r)
    (hatt : 5 ≤ r.attempts) :
    verify_reset_otp store email w now = (.attemptsExceeded, store) := by
  simp [verify_reset_otp, hrec, hatt]

/-- Claim C2 (amended): starting from a fresh OTP record, the five
consecutive wrong submissions all return Mismatch (with 4, 3, 2, 1 and 0
tries remaining), after the fifth the record still exists with
`attempts = 5`, and it is the sixth submission (with any code) that returns
AttemptsExceeded — whereupon `verify_otp` deletes the record while
`verify_reset_otp` keeps it. -/
theorem C2_otp_exhaustion_on_sixth (store : OtpStore) (rstore : ResetStore)
    (email c pur uname : String) (ts : Nat) (v rv : Bool)
    (w1 w2 w3 w4 w5 w6 : String) (t1 t2 t3 t4 t5 t6 : Nat)
    (h0 : store email = some ⟨c, pur, ts, v, 0⟩)
    (hr0 : rstore (pyLower email) = some ⟨c, uname, ts, rv, 0⟩)
    (hw1 : c ≠ w1) (hw2 : c ≠ w2) (hw3 : c ≠ w3) (hw4 : c ≠ w4) (hw5 : c ≠ w5)
    (ht1 : t1 - ts ≤ 300) (ht2 : t2 - ts ≤ 300) (ht3 : t3 - ts ≤ 300)
    (ht4 : t4 - ts ≤ 300) (ht5 : t5 - ts ≤ 300) :
    (verify_otp store email w1 t1).1 = .mismatch 4 ∧
      (verify_otp (verify_otp store email w1 t1).2 email w2 t2).1 = .mismatch 3 ∧
      (verify_otp (verify_otp (verify_otp store email w1 t1).2 email w2 t2).2
        email w3 t3).1 = .mismatch 2 ∧
      (verify_otp (verify_otp (verify_otp (verify_otp store email w1 t1).2
        email w2 t2).2 email w3 t3).2 email w4 t4).1 = .mismatch 1 ∧
      (verify_otp (verify_otp (verify_otp (verify_otp (verify_otp store email
        w1 t1).2 email w2 t2).2 email w3 t3).2 email w4 t4).2 email w5 t5).1
        = .mismatch 0 ∧
      (verify_otp (verify_otp (verify_otp (verify_otp (verify_otp store email
        w1 t1).2 email w2 t2).2 email w3 t3).2 email w4 t4).2 email w5 t5).2
        email = some ⟨c, pur, ts, v, 5⟩ ∧
      (verify_otp (verify_otp (verify_otp (verify_otp (verify_otp (verify_otp
        store email w1 t1).2 email w2 t2).2 email w3 t3).2 email w4 t4).2
        email w5 t5).2 email w6 t6).1 = .attemptsExceeded ∧
      (verify_otp (verify_otp (verify_otp (verify_otp (verify_otp (verify_otp
        store email w1 t1).2 email w2 t2).2 email w3 t3).2 email w4 t4).2
        email w5 t5).2 email w6 t6).2 email = none ∧
      (verify_reset_otp rstore email w1 t1).1 = .mismatch 4 ∧
      (verify_reset_otp (verify_reset_otp rstore email w1 t1).2 email w2 t2).1
        = .mismatch 3 ∧
      (verify_reset_otp (verify_reset_otp (verify_reset_otp rstore email w1 t1).2
        email w2 t2).2 email w3 t3).1 = .mismatch 2 ∧
      (verify_reset_otp (verify_reset_otp (verify_reset_otp (verify_reset_otp
        rstore email w1 t1).2 email w2 t2).2 email w3 t3).2 email w4 t4).1
        = .mismatch 1 ∧
      (verify_reset_otp (verify_reset_otp (verify_reset_otp (verify_reset_otp
        (verify_reset_otp rstore email w1 t1).2 email w2 t2).2 email w3 t3).2
        email w4 t4).2 email w5 t5).1 = .mismatch 0 ∧
      (verify_reset_otp (verify_reset_otp (verify_reset_otp (verify_reset_otp
        (verify_reset_otp rstore email w1 t1).2 email w2 t2).2 email w3 t3).2
        email w4 t4).2 email w5 t5).2 (pyLower email)
        = some ⟨c, uname, ts, rv, 5⟩ ∧
      (verify_reset_otp (verify_reset_otp (verify_reset_otp (verify_reset_otp
        (verify_reset_otp (verify_reset_otp rstore email w1 t1).2 email w2 t2).2
        email w3 t3).2 email w4 t4).2 email w5 t5).2 email w6 t6).1
        = .attemptsExceeded ∧
      (verify_reset_otp (verify_reset_otp (verify_reset_otp (verify_reset_otp
        (verify_reset_otp (verify_reset_otp rstore email w1 t1).2 email w2 t2).2
        email w3 t3).2 email w4 t4).2 email w5 t5).2 email w6 t6).2
        (pyLower email) = some ⟨c, uname, ts, rv, 5⟩ := by
  have m1 := verify_otp_mismatch store email w1 t1 ⟨c, pur, ts, v, 0⟩ h0
    (by simp) ht1 hw1
  have e1 : (verify_otp store email w1 t1).2 email = some ⟨c, pur, ts, v, 1⟩ := by
    rw [m1]
    simp
  have m2 := verify_otp_mismatch (verify_otp store email w1 t1).2 email w2 t2
    ⟨c, pur, ts, v, 1⟩ e1 (by simp) ht2 hw2
  have e2 : (verify_otp (verify_otp store email w1 t1).2 email w2 t2).2 email
      = some ⟨c, pur, ts, v, 2⟩ := by
    rw [m2]
    simp
  have m3 := verify_otp_mismatch (verify_otp (verify_otp store email w1 t1).2
    email w2 t2).2 email w3 t3 ⟨c, pur, ts, v, 2⟩ e2 (by simp) ht3 hw3
  have e3 : (verify_otp (verify_otp (verify_otp store email w1 t1).2 email
      w2 t2).2 email w3 t3).2 email = some ⟨c, pur, ts, v, 3⟩ := by
    rw [m3]
    simp
  have m4 := verify_otp_mismatch (verify_otp (verify_otp (verify_otp store email
    w1 t1).2 email w2 t2).2 email w3 t3).2 email w4 t4 ⟨c, pur, ts, v, 3⟩ e3
    (by simp) ht4 hw4
  have e4 : (verify_otp (verify_otp (verify_otp (verify_otp store email w1 t1).2
      email w2 t2).2 email w3 t3).2 email w4 t4).2 email
      = some ⟨c, pur, ts, v, 4⟩ := by
    rw [m4]
    simp
  have m5 := verify_otp_mismatch (verify_otp (verify_otp (verify_otp (verify_otp
    store email w1 t1).2 email w2 t2).2 email w3 t3).2 email w4 t4).2 email w5 t5
    ⟨c, pur, ts, v, 4⟩ e4 (by simp) ht5 hw5
  have e5 : (verify_otp (verify_otp (verify_otp (verify_otp (verify_otp store
      email w1 t1).2 email w2 t2).2 email w3 t3).2 email w4 t4).2 email w5 t5).2
      email = some ⟨c, pur, ts, v, 5⟩ := by
    rw [m5]
    simp
  have m6 := verify_otp_exhausted (verify_otp (verify_otp (verify_otp (verify_otp
    (verify_otp store email w1 t1).2 email w2 t2).2 email w3 t3).2 email w4 t4).2
    email w5 t5).2 email w6 t6 ⟨c, pur, ts, v, 5⟩ e5 (by simp)
  have x6 : (verify_otp (verify_otp (verify_otp (verify_otp (verify_otp
      (verify_otp store email w1 t1).2 email w2 t2).2 email w3 t3).2 email
      w4 t4).2 email w5 t5).2 email w6 t6).2 email = none := by
    rw [m6]
    simp
  have q1 := verify_reset_otp_mismatch rstore email w1 t1 ⟨c, uname, ts, rv, 0⟩
    hr0 (by simp) (by show t1 - ts ≤ 600; omega) hw1
  have f1 : (verify_reset_otp rstore email w1 t1).2 (pyLower email)
      = some ⟨c, uname, ts, rv, 1⟩ := by
    rw [q1]
    simp
  have q2 := verify_reset_otp_mismatch (verify_reset_otp rstore email w1 t1).2
    email w2 t2 ⟨c, uname, ts, rv, 1⟩ f1 (by simp) (by show t2 - ts ≤ 600; omega) hw2
  have f2 : (verify_reset_otp (verify_reset_otp rstore email w1 t1).2 email
      w2 t2).2 (pyLower email) = some ⟨c, uname, ts, rv, 2⟩ := by
    rw [q2]
    simp
  have q3 := verify_reset_otp_mismatch (verify_reset_otp (verify_reset_otp rstore
    email w1 t1).2 email w2 t2).2 email w3 t3 ⟨c, uname, ts, rv, 2⟩ f2 (by simp)
    (by show t3 - ts ≤ 600; omega) hw3
  have f3 : (verify_reset_otp (verify_reset_otp (verify_reset_otp rstore email
      w1 t1).2 email w2 t2).2 email w3 t3).2 (pyLower email)
      = some ⟨c, uname, ts, rv, 3⟩ := by
    rw [q3]
    simp
  have q4 := verify_reset_otp_mismatch (verify_reset_otp (verify_reset_otp
    (verify_reset_otp rstore email w1 t1).2 email w2 t2).2 email w3 t3).2 email
    w4 t4 ⟨c, uname, ts, rv, 3⟩ f3 (by simp) (by show t4 - ts ≤ 600; omega) hw4
  have f4 : (verify_reset_otp (verify_reset_otp (verify_reset_otp
      (verify_reset_otp rstore email w1 t1).2 email w2 t2).2 email w3 t3).2
      email w4 t4).2 (pyLower email) = some ⟨c, uname, ts, rv, 4⟩ := by
    rw [q4]
    simp
  have q5 := verify_reset_otp_mismatch (verify_reset_otp (verify_reset_otp
    (verify_reset_otp (verify_reset_otp rstore email w1 t1).2 email w2 t2).2
    email w3 t3).2 email w4 t4).2 email w5 t5 ⟨c, uname, ts, rv, 4⟩ f4 (by simp)
    (by show t5 - ts ≤ 600; omega) hw5
  have f5 : (verify_reset_otp (verify_reset_otp (verify_reset_otp
      (verify_reset_otp (verify_reset_otp rstore email w1 t1).2 email w2 t2).2
      email w3 t3).2 email w4 t4).2 email w5 t5).2 (pyLower email)
      = some ⟨c, uname, ts, rv, 5⟩ := by
    rw [q5]
    simp
  have q6 := verify_reset_otp_exhausted (verify_reset_otp (verify_reset_otp
    (verify_reset_otp (verify_reset_otp (verify_reset_otp rstore email w1 t1).2
    email w2 t2).2 email w3 t3).2 email w4 t4).2 email w5 t5).2 email w6 t6
    ⟨c, uname, ts, rv, 5⟩ f5 (by simp)
  refine ⟨by rw [m1]; rfl, by rw [m2]; rfl, by rw [m3]; rfl, by rw [m4]; rfl,
    by rw [m5]; rfl, e5, by rw [m6], x6, by rw [q1]; rfl, by rw [q2]; rfl,
    by rw [q3]; rfl, by rw [q4]; rfl, by rw [q5]; rfl, f5, by rw [q6], ?_⟩
  rw [q6]
  exact f5

/-- Claim C2 witness: the first wrong submission against a fresh record
reports four tries remaining. -/
theorem C2_otp_exhaustion_on_sixth_witness :
    (verify_otp
        (fun k => if k = "a@x.com" then
          some ⟨"123456", "verification", 0, false, 0⟩ else none)
        "a@x.com" "000000" 1).1 = .mismatch 4 :=
  (C2_otp_exhaustion_on_sixth
    (fun k => if k = "a@x.com" then some ⟨"123456", "verification", 0, false, 0⟩
      else none)
    (fun k => if k = "a@x.com" then some ⟨"123456", "bob", 0, false, 0⟩ else none)
    "a@x.com" "123456" "verification" "bob" 0 false false
    "000000" "000000" "000000" "000000" "000000" "000000" 1 1 1 1 1 1
    (by decide) (by decide) (by decide) (by decide) (by decide) (by decide)
    (by decide) (by decide) (by decide) (by decide) (by decide) (by decide)).1

/-- Claim C2 counterexample: the fifth consecutive wrong code returns
Mismatch with zero tries remaining, not AttemptsExceeded, and the record is
still present afterwards. -/
theorem C2_counterexample :
    (verify_otp (verify_otp (verify_otp (verify_otp (verify_otp
        (fun k => if k = "a@x.com" then
          some ⟨"123456", "verification", 0, false, 0⟩ else none)
        "a@x.com" "000000" 0).2 "a@x.com" "000000" 0).2 "a@x.com" "000000" 0).2
        "a@x.com" "000000" 0).2 "a@x.com" "000000" 0).1 = OtpResult.mismatch 0 ∧
      ¬ (verify_otp (verify_otp (verify_otp (verify_otp (verify_otp
        (fun k => if k = "a@x.com" then
          some ⟨"123456", "verification", 0, false, 0⟩ else none)
        "a@x.com" "000000" 0).2 "a@x.com" "000000" 0).2 "a@x.com" "000000" 0).2
        "a@x.com" "000000" 0).2 "a@x.com" "000000" 0).1
        = OtpResult.attemptsExceeded ∧
      ¬ (verify_otp (verify_otp (verify_otp (verify_otp (verify_otp
        (fun k => if k = "a@x.com" then
          some ⟨"123456", "verification", 0, false, 0⟩ else none)
        "a@x.com" "000000" 0).2 "a@x.com" "000000" 0).2 "a@x.com" "000000" 0).2
        "a@x.com" "000000" 0).2 "a@x.com" "000000" 0).2 "a@x.com" = none := by
  decide

/-- Claim C3: a verification OTP verified with the correct code succeeds
twice in a row (the `verified` flag is idempotent and the record survives
success), while a reset OTP consumed by a successful `reset_password` is
deleted, so every later `verify_reset_otp` for that email reports that no
request exists. -/
theorem C3_verified_idempotent_reset_consumed
    (store : OtpStore) (email code : String) (d : OtpRec) (t1 t2 : Nat)
    (H : String → String) (users : Users) (rstore : ResetStore)
    (remail new_password : String) (now : Nat) (r : ResetRec)
    (hrec : store email = some d) (hcode : d.otp = code) (hatt : d.attempts < 5)
    (ht1 : t1 - d.timestamp ≤ 300) (ht2 : t2 - d.timestamp ≤ 300)
    (hpw : new_password ≠ "") (hlen : ¬ new_password.length < 6)
    (hr : rstore (pyLower remail) = some r) (hver : r.verified = true)
    (huser : (lookupUser users r.username).isSome = true) :
    (verify_otp store email code t1).1 = .success ∧
      (verify_otp store email code t1).2 email = some { d with verified := true } ∧
      (verify_otp (verify_otp store email code t1).2 email code t2).1 = .success ∧
      (verify_otp (verify_otp store email code t1).2 email code t2).2 email
        = some { d with verified := true } ∧
      (reset_password H users rstore remail new_password new_password now).1
        = .success ∧
      (reset_password H users rstore remail new_password new_password now).2.2
        (pyLower remail) = none ∧
      (∀ w t, (verify_reset_otp
          ((reset_password H users rstore remail new_password new_password now).2.2)
          remail w t).1 = .notFound) := by
  have s1 := verify_otp_right_code store email code t1 d hrec hatt ht1 hcode
  have e1 : (verify_otp store email code t1).2 email
      = some { d with verified := true } := by
    rw [s1]
    simp
  have s2 := verify_otp_right_code (verify_otp store email code t1).2 email code
    t2 { d with verified := true } e1 hatt ht2 hcode
  have hst : (reset_password H users rstore remail new_password new_password
      now).2.2 (pyLower remail) = none := by
    simp [reset_password, hpw, hlen, hr, hver, huser]
  refine ⟨by rw [s1], e1, by rw [s2], ?_, ?_, hst, ?_⟩
  · rw [s2]
    simp
  · simp [reset_password, hpw, hlen, hr, hver, huser]
  · intro w t
    simp [verify_reset_otp, hst]

/-- Claim C3 witness: the second correct verification still succeeds, and a
reset verify after a completed password reset finds no request. -/
theorem C3_verified_idempotent_reset_consumed_witness :
    (verify_otp (verify_otp
        (fun k => if k = "a@x.com" then
          some ⟨"123456", "verification", 0, false, 0⟩ else none)
        "a@x.com" "123456" 0).2 "a@x.com" "123456" 10).1 = .success ∧
      (verify_reset_otp ((reset_password id
          [("bob", ⟨"old", "b@x.com", "User", none, 0, none⟩)]
          (fun k => if k = "b@x.com" then some ⟨"654321", "bob", 0, true, 1⟩
            else none)
          "b@x.com" "newpass" "newpass" 0).2.2) "b@x.com" "111111" 5).1
        = .notFound := by
  have h := C3_verified_idempotent_reset_consumed
    (fun k => if k = "a@x.com" then some ⟨"123456", "verification", 0, false, 0⟩
      else none)
    "a@x.com" "123456" ⟨"123456", "verification", 0, false, 0⟩ 0 10 id
    [("bob", ⟨"old", "b@x.com", "User", none, 0, none⟩)]
    (fun k => if k = "b@x.com" then some ⟨"654321", "bob", 0, true, 1⟩ else none)
    "b@x.com" "newpass" 0 ⟨"654321", "bob", 0, true, 1⟩
    (by decide) (by decide) (by decide) (by decide) (by decide) (by decide)
    (by decide) (by decide) (by decide) (by decide)
  exact ⟨h.2.2.1, h.2.2.2.2.2.2 "111111" 5⟩

/-! ## OTP code generation (auth_logic.py lines 265-267, forgot_password.py
lines 47-48)

Both modules define `generate_otp` as `str(random.randint(100000, 999999))`.
The random draw is modelled as a seed-indexed choice from the inclusive
range, and Python `str` as decimal digit conversion. -/

/-- A decimal digit as its ASCII character. -/
def digitChar (d : Nat) : Char := Char.ofNat (48 + d)

/-- The decimal digits of `n`, least significant first, with explicit fuel so
the recursion is structural. -/
def digitsRev : Nat → Nat → List Nat
  | 0, _ => []
  | fuel + 1, n => if n = 0 then [] else n % 10 :: digitsRev fuel (n / 10)

/-- Python `str(n)` on a natural number: its decimal digits, most significant
first. -/
def natStr (n : Nat) : String :=
  if n = 0 then "0"
  else String.mk ((digitsRev n n).reverse.map digitChar)

/-- `random.randint(lo, hi)` modelled as a seed-indexed uniform choice from
the inclusive range `[lo, hi]`. -/
def randint (lo hi seed : Nat) : Nat := lo + seed % (hi + 1 - lo)

/-- `generate_otp` (auth_logic.py lines 265-267 and forgot_password.py lines
47-48): `str(random.randint(100000, 999999))`. -/
def generate_otp (seed : Nat) : String := natStr (randint 100000 999999 seed)

/-- The fuel-bounded digit list agrees with `Nat.digits 10`. -/
theorem digitsRev_eq_digits : ∀ fuel n, n ≤ fuel → digitsRev fuel n = Nat.digits 10 n := by
  intro fuel
  induction fuel with
  | zero =>
    intro n hn
    have hz : n = 0 := by omega
    subst hz
    simp [digitsRev]
  | succ fuel ih =>
    intro n hn
    by_cases h0 : n = 0
    · simp [digitsRev, h0]
    · have hdiv : n / 10 ≤ fuel := by omega
      simp only [digitsRev]
      rw [if_neg h0, ih _ hdiv,
        ← Nat.digits_def' (by norm_num : (1:Nat) < 10) (Nat.pos_of_ne_zero h0)]

/-- A digit below 10 renders as an ASCII digit character. -/
theorem digitChar_isDigit (d : Nat) (hd : d < 10) : isDigit09 (digitChar d) = true := by
  interval_cases d <;> decide

/-- A nonzero digit below 10 never renders as the character 0. -/
theorem digitChar_ne_zero (d : Nat) (hd : d < 10) (h0 : d ≠ 0) : digitChar d ≠ '0' := by
  interval_cases d
  · exact absurd rfl h0
  all_goals decide

/-- `natStr` on a six-digit number: length six, all ASCII digits, and the
leading character is never the digit 0. -/
theorem natStr_spec (n : Nat) (h1 : 100000 ≤ n) (h2 : n ≤ 999999) :
    (natStr n).length = 6 ∧ (∀ c ∈ (natStr n).data, isDigit09 c = true) ∧
      (∀ c, (natStr n).data.head? = some c → c ≠ '0') := by
  have hn0 : n ≠ 0 := by omega
  have hns : natStr n = String.mk ((Nat.digits 10 n).reverse.map digitChar) := by
    rw [natStr, if_neg hn0, digitsRev_eq_digits n n le_rfl]
  have hlog : Nat.log 10 n = 5 := by
    have p1 : (10:Nat) ^ 5 ≤ n := by norm_num; omega
    have p2 : n < 10 ^ (5 + 1) := by norm_num; omega
    exact Nat.log_eq_of_pow_le_of_lt_pow p1 p2
  have hlen : (Nat.digits 10 n).length = 6 := by
    rw [Nat.digits_len 10 n (by norm_num) hn0, hlog]
  have hdata : (String.mk ((Nat.digits 10 n).reverse.map digitChar)).data
      = (Nat.digits 10 n).reverse.map digitChar := rfl
  refine ⟨?_, ?_, ?_⟩
  · rw [hns]
    show ((Nat.digits 10 n).reverse.map digitChar).length = 6
    simp [hlen]
  · intro c hc
    rw [hns, hdata] at hc
    rcases List.mem_map.1 hc with ⟨d, hd, rfl⟩
    exact digitChar_isDigit d (Nat.digits_lt_base (by norm_num) (List.mem_reverse.1 hd))
  · intro c hc
    have hne : Nat.digits 10 n ≠ [] := Nat.digits_ne_nil_iff_ne_zero.mpr hn0
    rw [hns, hdata, List.head?_map, List.head?_reverse,
      List.getLast?_eq_getLast _ hne] at hc
    obtain rfl : digitChar ((Nat.digits 10 n).getLast hne) = c := by simpa using hc
    have hd10 : (Nat.digits 10 n).getLast hne < 10 :=
      Nat.digits_lt_base (by norm_num) (List.getLast_mem hne)
    exact digitChar_ne_zero _ hd10 (Nat.getLast_digit_ne_zero 10 hn0)

/-- Claim C9 (amended): every value `generate_otp` can return is a string of
exactly six ASCII digits whose first digit is never 0; the draw ranges over
the full inclusive interval 100000-999999 (each member is attained by some
seed), so leading-zero codes are not among the possible outputs. -/
theorem C9_otp_format (seed : Nat) :
    (generate_otp seed).length = 6 ∧
      (∀ c ∈ (generate_otp seed).data, isDigit09 c = true) ∧
      (∀ c, (generate_otp seed).data.head? = some c → c ≠ '0') ∧
      100000 ≤ randint 100000 999999 seed ∧
      randint 100000 999999 seed ≤ 999999 ∧
      (∀ n, 100000 ≤ n → n ≤ 999999 → randint 100000 999999 (n - 100000) = n) := by
  have hlo : 100000 ≤ randint 100000 999999 seed := Nat.le_add_right _ _
  have hhi : randint 100000 999999 seed ≤ 999999 := by
    have hm : seed % (999999 + 1 - 100000) < 999999 + 1 - 100000 :=
      Nat.mod_lt seed (by norm_num)
    simp only [randint]
    omega
  obtain ⟨hl, hdig, hhead⟩ := natStr_spec (randint 100000 999999 seed) hlo hhi
  refine ⟨hl, hdig, hhead, hlo, hhi, ?_⟩
  intro n hn1 hn2
  simp only [randint]
  omega

/-- Claim C9 counterexample: no random draw can make the generated code start
with the character 0, because `random.randint(100000, 999999)` never returns
a value below 100000. -/
theorem C9_counterexample :
    ¬ ∃ seed, (generate_otp seed).data.head? = some '0' := by
  rintro ⟨seed, hc⟩
  have hlo : 100000 ≤ randint 100000 999999 seed := Nat.le_add_right _ _
  have hhi : randint 100000 999999 seed ≤ 999999 := by
    have hm : seed % (999999 + 1 - 100000) < 999999 + 1 - 100000 :=
      Nat.mod_lt seed (by norm_num)
    simp only [randint]
    omega
  exact (natStr_spec (randint 100000 999999 seed) hlo hhi).2.2 '0' hc rfl

end MedAuth
